import Mathlib

/-!
Shallow embedding of `src/boost/locking_queue.hpp` (template class
`boost::locking_queue<T, Container>`).

The queue's protected state is a single field `container` (a
`std::queue<T>` by default), guarded by a mutex and a condition
variable `non_empty_cond`.  We embed the container as a `List α`
whose head is the front of the queue (`container.front()` reads the
head, `container.pop()` drops it, `container.push(v)` appends at the
tail).

The mutex and the condition variable themselves are not data; what
matters to the observable behaviour of `pop` is the sequence of
returns from `non_empty_cond.wait` / `non_empty_cond.timed_wait`.
Each such return is embedded as a `WakeEvent`: whether
`timed_wait` reported expiry (`timed_out = true` means `timed_wait`
returned `false`), and the container state found when the lock is
re-acquired (other threads may have pushed or popped while the
caller was suspended).  A call to `pop` is then a pure function of
the initial container state and the (finite) list of wake events the
environment supplies.
-/

set_option autoImplicit false

namespace locking_queue

/-- Outcome of one call to `locking_queue::pop` as embedded here.
`ok v rest` models a normal return of value `v` with `rest` the
container afterwards; `queue_empty s` models `throw queue_empty()`
with `s` the container at the throw; `undefined_behavior` marks the
execution of `container.front()` on an empty container (undefined
behavior for `std::queue`); `blocked s` means the call is still
suspended in a wait with container state `s` and no further wake-up
ever arrives. -/
inductive PopResult (α : Type) where
  | ok (value : α) (rest : List α)
  | queue_empty (state : List α)
  | undefined_behavior
  | blocked (state : List α)
  deriving DecidableEq, Repr

/-- One return from `wait`/`timed_wait` inside `pop`'s loop:
`timed_out` is true when `timed_wait` returned `false` (the timeout
elapsed), and `state` is the container contents observed once the
lock is re-acquired. -/
structure WakeEvent (α : Type) where
  timed_out : Bool
  state : List α
  deriving DecidableEq, Repr

/-- The `block` branch of `pop` (lines 115-125 of the source):

    while (!container.empty()) {
        if (timeout > 0) {
            if (!non_empty_cond.timed_wait(lock, seconds(timeout))) {
                throw queue_empty();
            }
        } else {
            non_empty_cond.wait(lock);
        }
    }

followed by `container.front(); container.pop();` (lines 132-133).
Note the loop guard is `!container.empty()`: the loop runs while the
container is NON-empty and exits as soon as it is empty, at which
point `front()` is executed on an empty container. -/
def pop_wait_loop {α : Type} (timeout : Int) :
    List α → List (WakeEvent α) → PopResult α
  | [], _ =>
      PopResult.undefined_behavior
  | x :: xs, [] =>
      PopResult.blocked (x :: xs)
  | _ :: _, e :: rest =>
      if timeout > 0 && e.timed_out then
        PopResult.queue_empty e.state
      else
        pop_wait_loop timeout e.state rest

/-- `locking_queue::pop(bool block = false, int timeout = 0)`
(lines 112-136 of the source).  When `block` is false: throw
`queue_empty` if the container is empty, otherwise read the front and
drop it.  When `block` is true: run the wait loop above and then read
the front and drop it. -/
def pop {α : Type} (block : Bool) (timeout : Int) (c : List α)
    (evs : List (WakeEvent α)) : PopResult α :=
  if block then
    pop_wait_loop timeout c evs
  else
    if c.isEmpty then
      PopResult.queue_empty c
    else
      match c with
      | [] => PopResult.undefined_behavior
      | x :: xs => PopResult.ok x xs

/-- `locking_queue::push(const value_type&)` (lines 142-146):
`container.push(element)` appends at the tail (then notifies the
condition, which has no effect on the container state). -/
def push {α : Type} (c : List α) (element : α) : List α :=
  c ++ [element]

/-- `locking_queue::empty()` (lines 84-87): `container.empty()`. -/
def empty {α : Type} (c : List α) : Bool :=
  c.isEmpty

/-- `locking_queue::size()` (lines 93-96): `container.size()`. -/
def size {α : Type} (c : List α) : Nat :=
  c.length

/-- `locking_queue(const container_type& other)` (lines 77-78):
the container is copy-constructed from `other`. -/
def of_container {α : Type} (other : List α) : List α :=
  other

/-- A sequence of pushes `v1, ..., vn` applied in order. -/
def push_all {α : Type} (c : List α) (vs : List α) : List α :=
  vs.foldl push c

/-- `n` successive non-blocking pops; returns the popped values in
order together with the final container state, or `none` if some pop
does not return normally. -/
def pop_n {α : Type} : Nat → List α → Option (List α × List α)
  | 0, c => some ([], c)
  | n + 1, c =>
      match pop false 0 c [] with
      | PopResult.ok v rest =>
          match pop_n n rest with
          | some (vs, final) => some (v :: vs, final)
          | none => none
      | _ => none

theorem push_all_append {α : Type} (c : List α) (vs : List α) :
    push_all c vs = c ++ vs := by
  induction vs generalizing c with
  | nil => simp [push_all]
  | cons v vs ih =>
      simp only [push_all, List.foldl_cons] at *
      rw [ih (push c v)]
      simp [push, List.append_assoc]

theorem pop_cons {α : Type} (x : α) (xs : List α) :
    pop false 0 (x :: xs) [] = PopResult.ok x xs := rfl

theorem pop_n_self {α : Type} (vs : List α) :
    pop_n vs.length vs = some (vs, []) := by
  induction vs with
  | nil => rfl
  | cons v vs ih =>
      simp [pop_n, pop_cons, ih]

theorem pop_wait_loop_ne_ok {α : Type} (timeout : Int) (c : List α)
    (evs : List (WakeEvent α)) (v : α) (rest : List α) :
    pop_wait_loop timeout c evs ≠ PopResult.ok v rest := by
  induction evs generalizing c with
  | nil => cases c <;> simp [pop_wait_loop]
  | cons e rest' ih =>
      cases c with
      | nil => simp [pop_wait_loop]
      | cons x xs =>
          simp only [pop_wait_loop]
          split
          · simp
          · exact ih e.state

theorem pop_wait_loop_queue_empty {α : Type} (timeout : Int) (c : List α)
    (evs : List (WakeEvent α)) (s : List α)
    (h : pop_wait_loop timeout c evs = PopResult.queue_empty s) :
    ∃ e ∈ evs, s = e.state := by
  induction evs generalizing c with
  | nil => cases c <;> simp [pop_wait_loop] at h
  | cons e rest ih =>
      cases c with
      | nil => simp [pop_wait_loop] at h
      | cons x xs =>
          simp only [pop_wait_loop] at h
          split at h
          · injection h with h
            exact ⟨e, List.mem_cons_self e rest, h.symm⟩
          · obtain ⟨e', he', hs⟩ := ih e.state h
            exact ⟨e', List.mem_cons_of_mem e he', hs⟩

/-- C1 (code bug): the wait loop of `pop` with `block = true` does NOT
guarantee that removal happens only in a non-empty state.  The loop
guard is `while (!container.empty())`, inverted from its documented
intent, so on an empty queue the blocking pop skips waiting entirely
and executes `container.front()` in the empty state (undefined
behavior for `std::queue`). -/
theorem c1_blocking_pop_removes_in_empty_state :
    pop true 0 ([] : List Nat) [] = PopResult.undefined_behavior := rfl

/-- C2 (code bug): `pop(block = true, timeout <= 0)` neither waits for
data on an empty queue nor returns the head of a non-empty queue.  On
the non-empty queue `[5]` it enters the wait loop and suspends forever
(no wake-up ever comes since nobody need push), instead of returning
`5`; on the empty queue it executes `front()` on an empty container. -/
theorem c2_blocking_pop_wrong_mode :
    pop true 0 [5] ([] : List (WakeEvent Nat)) = PopResult.blocked [5] ∧
    pop true 0 ([] : List Nat) [] = PopResult.undefined_behavior :=
  ⟨rfl, rfl⟩

/-- C3 (code bug): `pop(block = true, timeout > 0)` on an empty queue
does not wait up to the timeout and fail with `QueueEmpty`: it
immediately executes `front()` on the empty container.  And on a
non-empty queue it waits, and when `timed_wait` expires it throws
`QueueEmpty` even though the head element is available. -/
theorem c3_timed_blocking_pop_wrong_mode :
    pop true 1 ([] : List Nat) [] = PopResult.undefined_behavior ∧
    pop true 1 [5] [⟨true, [5]⟩] = PopResult.queue_empty [5] :=
  ⟨rfl, rfl⟩

/-- C4: `pop` with `block = false` on an empty queue fails immediately
with `queue_empty` for every supplied timeout (the timeout and any
wake-ups are ignored), and on a non-empty queue removes and returns
the head element. -/
theorem c4_nonblocking_pop (α : Type) (timeout : Int) (c : List α)
    (evs : List (WakeEvent α)) :
    pop false timeout c evs =
      match c with
      | [] => PopResult.queue_empty []
      | x :: xs => PopResult.ok x xs := by
  cases c <;> rfl

/-- C5: FIFO order — pushing `v1, ..., vn` into an initially empty
queue and then performing `n` non-blocking pops returns exactly
`v1, ..., vn` in that order, leaving the queue empty. -/
theorem c5_fifo_order (α : Type) (vs : List α) :
    pop_n vs.length (push_all [] vs) = some (vs, []) := by
  rw [push_all_append, List.nil_append]
  exact pop_n_self vs

/-- C6: a `pop` call that returns normally with value `v` and leaves
`rest` behind started from the state `v :: rest`: it removed exactly
the head element and nothing else.  A `pop` call that throws
`queue_empty` throws it at a state it did not modify: either the
initial state or a state delivered unchanged by a wake-up event. -/
theorem c6_pop_atomicity (α : Type) (block : Bool) (timeout : Int)
    (c : List α) (evs : List (WakeEvent α)) :
    (∀ v rest, pop block timeout c evs = PopResult.ok v rest →
        c = v :: rest) ∧
    (∀ s, pop block timeout c evs = PopResult.queue_empty s →
        s = c ∨ ∃ e ∈ evs, s = e.state) := by
  constructor
  · intro v rest h
    cases block with
    | true => exact absurd h (pop_wait_loop_ne_ok timeout c evs v rest)
    | false =>
        cases c with
        | nil => simp [pop] at h
        | cons x xs =>
            simp only [pop, if_neg, Bool.false_eq_true, List.isEmpty_cons,
              ite_false] at h
            injection h with h1 h2
            rw [h1, h2]
  · intro s h
    cases block with
    | true =>
        exact Or.inr (pop_wait_loop_queue_empty timeout c evs s h)
    | false =>
        cases c with
        | nil =>
            simp only [pop, List.isEmpty_nil, ite_true, Bool.false_eq_true,
              if_false] at h
            injection h with h
            exact Or.inl h.symm
        | cons x xs =>
            simp [pop] at h

theorem c6_pop_atomicity_witness :
    (([3, 4] : List Nat) = 3 :: [4]) ∧
    (([] : List Nat) = [] ∨ ∃ e ∈ ([] : List (WakeEvent Nat)), ([] : List Nat) = e.state) :=
  ⟨(c6_pop_atomicity Nat false 0 [3, 4] []).1 3 [4] rfl,
   (c6_pop_atomicity Nat false 0 [] []).2 [] rfl⟩

/-- C7: constructing the queue as a copy of the sequence `[a, b, c]`
gives `size() = 3`, `empty() = false`, and a first non-blocking pop
that returns `a`. -/
theorem c7_seed_from_container (α : Type) (a b c : α) :
    size (of_container [a, b, c]) = 3 ∧
    empty (of_container [a, b, c]) = false ∧
    pop false 0 (of_container [a, b, c]) [] = PopResult.ok a [b, c] :=
  ⟨rfl, rfl, rfl⟩

/-- C8: after pushing `k` elements into an initially empty queue and
popping `k` elements, `empty()` returns true and `size()` returns 0. -/
theorem c8_empty_after_drain (α : Type) (vs popped f : List α)
    (h : pop_n vs.length (push_all [] vs) = some (popped, f)) :
    empty f = true ∧ size f = 0 := by
  rw [push_all_append, List.nil_append, pop_n_self vs] at h
  injection h with h
  injection h with h1 h2
  rw [← h2]
  exact ⟨rfl, rfl⟩

theorem c8_empty_after_drain_witness :
    empty ([] : List Nat) = true ∧ size ([] : List Nat) = 0 :=
  c8_empty_after_drain Nat [1, 2] [1, 2] [] rfl

/-- C9: `push` appends the value at the tail of the element sequence
and always succeeds — it is a total function with no failure result;
after a push the queue is non-empty and one element longer.  `empty`
and `size` are likewise total observers returning plain values; only
`pop` has the `queue_empty` failure outcome in its result type. -/
theorem c9_push_appends_total (α : Type) (c : List α) (v : α) :
    push c v = c ++ [v] ∧ size (push c v) = size c + 1 ∧
    empty (push c v) = false := by
  refine ⟨rfl, by simp [push, size], ?_⟩
  cases c <;> simp [push, empty]

/-- C10: the observers agree — `empty()` returns true exactly when
`size()` returns 0; both only read the container. -/
theorem c10_empty_agrees_with_size (α : Type) (c : List α) :
    empty c = decide (size c = 0) := by
  cases c <;> simp [empty, size]

end locking_queue
